import Mathlib

/-!
Shallow embedding of the OWT QUIC transport SDK core
(`quic_transport_factory_impl.cc` and `quic_transport_owt_server_impl.cc`).

Machine integers that can go negative (net error codes, receive results)
are modelled as `Int`; counters as `Nat`.  IP addresses and socket
addresses are abstract and modelled as `Nat` identifiers.  Calls through a
possibly-null `std::unique_ptr` (`dispatcher_`, `socket_`) are modelled
with `Option`: `none` means the code dereferenced a null pointer (a
crash), or, for factory entry points, that the process check-failed.
Observable interactions with the socket, the dispatcher and the log are
collected in an ordered `List Effect`.
-/

namespace OwtQuic

/-- net::ERR_IO_PENDING from net_error_list.h. -/
def ERR_IO_PENDING : Int := -1

/-- net::ERR_CONNECTION_CLOSED from net_error_list.h. -/
def ERR_CONNECTION_CLOSED : Int := -100

/-- `kNumSessionsToCreatePerSocketEvent` in quic_transport_owt_server_impl.cc. -/
def kNumSessionsToCreatePerSocketEvent : Nat := 16

/-- Observable actions of the server endpoint, in program order. -/
inductive Effect where
  /-- `dispatcher_->ProcessBufferedChlos(maxCount)` -/
  | processBufferedChlos (maxCount : Nat)
  /-- `socket_->RecvFrom(...)` returned `result` -/
  | recvFrom (result : Int)
  /-- a `StartReading` continuation was posted to the task runner -/
  | postStartReading
  /-- an `OnReadComplete(result)` continuation was posted to the task runner -/
  | postOnReadComplete (result : Int)
  /-- `LOG(ERROR) << "QuicRawServer read failed: ..."` -/
  | logReadError (result : Int)
  /-- `dispatcher_->Shutdown()` -/
  | shutdownDispatcher
  /-- `socket_->Close()` followed by `socket_.reset()` -/
  | closeSocket
  /-- `dispatcher_->ProcessPacket(local, peer, packet)` where the packet
      wraps `length` bytes with receipt time `receiptTime` -/
  | processPacket (localAddr peerAddr : Nat) (length : Int) (receiptTime : Nat)
  /-- `LOG(ERROR) << "Listen() failed: ..."` -/
  | logListenError (rc : Int)
  /-- `LOG(ERROR) << "SetReceiveBufferSize() failed: ..."` -/
  | logRecvBufError (rc : Int)
  /-- `LOG(ERROR) << "SetSendBufferSize() failed: ..."` -/
  | logSendBufError (rc : Int)
  /-- `LOG(ERROR) << "GetLocalAddress() failed: ..."` -/
  | logLocalAddrError (rc : Int)
  /-- `socket_.swap(socket)` -/
  | installSocket
  /-- `dispatcher_.reset(new quic::QuicTransportOWTDispatcher(...))` -/
  | createDispatcher
  /-- `dispatcher_->InitializeWithWriter(writer)` -/
  | initializeWithWriter
  deriving Repr, DecidableEq

/-- The mutable state of a `QuicTransportOWTServerImpl` that the embedded
code reads or writes.  `socketHeld` models `socket_ != nullptr`,
`dispatcherHeld` models `dispatcher_ != nullptr`, `chlosBuffered` models
what `dispatcher_->HasChlosBuffered()` reports, and `now` models the
clock read `helper_->GetClock()->Now()`. -/
structure ServerState where
  port : Int
  socketHeld : Bool
  dispatcherHeld : Bool
  readPending : Bool
  syncReadCount : Nat
  chlosBuffered : Bool
  serverAddress : Nat
  clientAddress : Nat
  now : Nat
  deriving Repr, DecidableEq

/-- `QuicTransportOWTServerImpl::Stop`:
`dispatcher_->Shutdown(); if (!socket_) return; socket_->Close(); socket_.reset();`.
`none` models the null-pointer dereference when `dispatcher_` is null. -/
def stop (s : ServerState) : Option (ServerState × List Effect) :=
  if s.dispatcherHeld = false then none
  else if s.socketHeld = false then some (s, [Effect.shutdownDispatcher])
  else some ({s with socketHeld := false},
             [Effect.shutdownDispatcher, Effect.closeSocket])

/-- The body of `QuicTransportOWTServerImpl::OnReadComplete` up to (but not
including) the tail call `StartReading()`.  Returns the state after the
body, the emitted effects, and whether control falls through to
`StartReading()` (`true`) or returned after `Stop()` (`false`).  `none`
models a null-pointer dereference. -/
def onReadCompleteStep (result : Int) (s : ServerState) :
    Option (ServerState × List Effect × Bool) :=
  let s0 := {s with readPending := false}
  let r1 := if result = 0 then ERR_CONNECTION_CLOSED else result
  if r1 < 0 then
    match stop s0 with
    | none => none
    | some (s1, fx1) => some (s1, Effect.logReadError r1 :: fx1, false)
  else
    if s0.dispatcherHeld = false then none
    else
      some (s0,
        [Effect.processPacket s0.serverAddress s0.clientAddress r1 s0.now],
        true)

/-- `QuicTransportOWTServerImpl::StartReading`.  The stubbed socket is the
list `rs`: each entry is a `RecvFrom` outcome `(result, peerAddress)`,
and an exhausted list completes asynchronously (`ERR_IO_PENDING`).
In-line completion (`OnReadComplete` called directly for a synchronous
read with the counter at most 32) is expanded recursively; posted
continuations are recorded as effects but not executed. -/
def startReading (s : ServerState) (rs : List (Int × Nat)) :
    Option (ServerState × List Effect) :=
  if s.syncReadCount = 0 ∧ s.dispatcherHeld = false then none
  else
  let fx0 : List Effect :=
    if s.syncReadCount = 0 then
      [Effect.processBufferedChlos kNumSessionsToCreatePerSocketEvent]
    else []
  if s.readPending then some (s, fx0)
  else if s.socketHeld = false then none
  else
    match rs with
    | [] =>
      if s.dispatcherHeld = false then none
      else
        some ({s with readPending := true, syncReadCount := 0},
          fx0 ++ Effect.recvFrom ERR_IO_PENDING ::
            (if s.chlosBuffered then [Effect.postStartReading] else []))
    | (r, peer) :: rest =>
      if r = ERR_IO_PENDING then
        if s.dispatcherHeld = false then none
        else
          some ({s with readPending := true, syncReadCount := 0},
            fx0 ++ Effect.recvFrom r ::
              (if s.chlosBuffered then [Effect.postStartReading] else []))
      else
        let s1 := {s with readPending := true, clientAddress := peer}
        if s1.syncReadCount + 1 > 32 then
          some ({s1 with syncReadCount := 0},
            fx0 ++ [Effect.recvFrom r, Effect.postOnReadComplete r])
        else
          match onReadCompleteStep r {s1 with syncReadCount := s1.syncReadCount + 1} with
          | none => none
          | some (s3, fx1, cont) =>
            if cont then
              match startReading s3 rest with
              | none => none
              | some (s4, fx2) => some (s4, fx0 ++ Effect.recvFrom r :: (fx1 ++ fx2))
            else
              some (s3, fx0 ++ Effect.recvFrom r :: fx1)

/-- `QuicTransportOWTServerImpl::OnReadComplete`: the body followed by the
tail call `StartReading()` when control falls through. -/
def onReadComplete (result : Int) (s : ServerState) (rs : List (Int × Nat)) :
    Option (ServerState × List Effect) :=
  match onReadCompleteStep result s with
  | none => none
  | some (s1, fx1, cont) =>
    if cont then
      match startReading s1 rs with
      | none => none
      | some (s2, fx2) => some (s2, fx1 ++ fx2)
    else some (s1, fx1)

/-- The effects emitted at the top of `StartReading` by the
`ProcessBufferedChlos` batch, empty unless the synchronous-read counter
is zero. -/
def chlosBatch (s : ServerState) : List Effect :=
  if s.syncReadCount = 0 then
    [Effect.processBufferedChlos kNumSessionsToCreatePerSocketEvent]
  else []

/-- `quic::kMinimumFlowControlSendWindow` (16 KB). -/
def kMinimumFlowControlSendWindow : Nat := 16 * 1024

/-- The two fields of `quic::QuicConfig` that
`QuicTransportOWTServerImpl::Initialize` reads and writes. -/
structure QuicConfig where
  initialStreamFlowControlWindowToSend : Nat
  initialSessionFlowControlWindowToSend : Nat
  deriving Repr, DecidableEq

/-- `quic::QuicConfig config;` in `CreateQuicTransportServer`: a
default-constructed config carries the minimum flow-control send
window for both stream and session. -/
def defaultQuicConfig : QuicConfig :=
  { initialStreamFlowControlWindowToSend := kMinimumFlowControlSendWindow,
    initialSessionFlowControlWindowToSend := kMinimumFlowControlSendWindow }

/-- The config rewriting done by `QuicTransportOWTServerImpl::Initialize`:
windows still at the minimum are raised to 64 KB (stream) and 1 MB
(session). -/
def initializeConfig (c : QuicConfig) : QuicConfig :=
  let c1 :=
    if c.initialStreamFlowControlWindowToSend = kMinimumFlowControlSendWindow
    then {c with initialStreamFlowControlWindowToSend := 64 * 1024}
    else c
  if c1.initialSessionFlowControlWindowToSend = kMinimumFlowControlSendWindow
  then {c1 with initialSessionFlowControlWindowToSend := 1 * 1024 * 1024}
  else c1

/-- A freshly constructed `QuicTransportOWTServerImpl`: member
initializers set `read_pending_(false)` and `synchronous_read_count_(0)`;
`socket_` and `dispatcher_` are default-constructed null
`std::unique_ptr`s; `server_address_` and `client_address_` are
default-constructed (modelled as address id 0). -/
def initialServerState (port : Int) : ServerState :=
  { port := port, socketHeld := false, dispatcherHeld := false,
    readPending := false, syncReadCount := 0, chlosBuffered := false,
    serverAddress := 0, clientAddress := 0, now := 0 }

/-- A constructed `QuicTransportOWTServerImpl` together with its (mutated)
`config_`. -/
structure ServerImpl where
  config : QuicConfig
  state : ServerState
  deriving Repr, DecidableEq

/-- `QuicTransportFactoryImpl::CreateQuicTransportServer`:
`CHECK(proof_source->Initialize(cert_file, key_file, ...))` aborts the
process when the certificate/key material cannot be loaded (modelled as
`none`); otherwise the `QuicTransportOWTServerImpl` constructor runs
(member initializers plus `Initialize()`) and the unstarted endpoint is
returned. -/
def createQuicTransportServer (proofSourceLoads : Bool) (port : Int) :
    Option ServerImpl :=
  if proofSourceLoads then
    some { config := initializeConfig defaultQuicConfig,
           state := initialServerState port }
  else none

/-- The platform outcomes consumed by
`QuicTransportOWTServerImpl::StartOnCurrentThread`: the return codes of
`Listen`, `SetReceiveBufferSize`, `SetSendBufferSize` and
`GetLocalAddress`, the local address the socket reports, and what the
freshly constructed dispatcher answers to `HasChlosBuffered()`. -/
structure StartEnv where
  listenRc : Int
  recvBufRc : Int
  sendBufRc : Int
  localAddrRc : Int
  localAddr : Nat
  dispatcherChlosBuffered : Bool
  deriving Repr, DecidableEq

/-- `QuicTransportOWTServerImpl::StartOnCurrentThread`: listen, configure
buffer sizes and query the local address (each failure merely logged),
install the socket, construct the dispatcher, hand it the packet
writer, and enter `StartReading()`. -/
def startOnCurrentThread (env : StartEnv) (s : ServerState)
    (rs : List (Int × Nat)) : Option (ServerState × List Effect) :=
  let fx1 := if env.listenRc < 0 then [Effect.logListenError env.listenRc] else []
  let fx2 := if env.recvBufRc < 0 then [Effect.logRecvBufError env.recvBufRc] else []
  let fx3 := if env.sendBufRc < 0 then [Effect.logSendBufError env.sendBufRc] else []
  let s1 := if env.localAddrRc < 0 then s else {s with serverAddress := env.localAddr}
  let fx4 := if env.localAddrRc < 0 then [Effect.logLocalAddrError env.localAddrRc] else []
  let s2 := {s1 with socketHeld := true, dispatcherHeld := true,
                     chlosBuffered := env.dispatcherChlosBuffered}
  match startReading s2 rs with
  | none => none
  | some (s3, fx5) =>
    some (s3, fx1 ++ fx2 ++ fx3 ++ fx4 ++
      [Effect.installSocket, Effect.createDispatcher, Effect.initializeWithWriter] ++ fx5)

/-- A constructed `net::QuicTransportOWTClientImpl` as far as
`CreateQuicTransportClient` determines it: the socket peer address it is
given and the `quic::QuicServerId` it is given. -/
structure ClientImpl where
  peerIp : Nat
  peerPort : Int
  serverIdHost : String
  serverIdPort : Nat
  deriving Repr, DecidableEq

/-- `GURL("https://www.example.org").host()`. -/
def exampleUrlHost : String := "www.example.org"

/-- `GURL("https://www.example.org").EffectiveIntPort()`: an https URL
with no explicit port has effective port 443. -/
def exampleUrlEffectiveIntPort : Nat := 443

/-- The outcome of the closure `CreateQuicTransportClient` posts to the
I/O thread: the value left in the caller's `result` slot, whether
`event->Signal()` was called, and whether the resolution error was
logged. -/
structure ClientTaskOutcome where
  result : Option ClientImpl
  signaled : Bool
  loggedResolveError : Bool
  deriving Repr, DecidableEq

/-- The closure posted to the I/O thread by
`QuicTransportFactoryImpl::CreateQuicTransportClient`.
`fromString` models `quic::QuicIpAddress::FromString` (some, when `host`
is an IP literal) and `resolve` models
`net::SynchronousHostResolver::Resolve` (`Except.error rv` when it
returns `rv != net::OK`).  On resolution failure the closure logs and
returns without writing `*result` and without signalling `event`. -/
def createClientOnIOThread (fromString : String → Option Nat)
    (resolve : String → Except Int Nat) (host : String) (port : Int) :
    ClientTaskOutcome :=
  let ipAddr : Option Nat :=
    match fromString host with
    | some ip => some ip
    | none =>
      match resolve host with
      | Except.error _ => none
      | Except.ok ip => some ip
  match ipAddr with
  | none => { result := none, signaled := false, loggedResolveError := true }
  | some ip =>
    { result := some
        { peerIp := ip
          peerPort := port
          serverIdHost := exampleUrlHost
          serverIdPort := exampleUrlEffectiveIntPort }
      signaled := true
      loggedResolveError := false }

/-- What the thread calling `CreateQuicTransportClient` observes: it
blocks on `done.Wait()`, which completes only if the posted closure
called `event->Signal()`. -/
inductive CreateClientOutcome where
  /-- `done.Wait()` returned and the factory returned `result`. -/
  | returns (client : Option ClientImpl)
  /-- the closure never signalled `done`, so `done.Wait()` blocks
      forever -/
  | callerBlocksForever
  deriving Repr, DecidableEq

/-- `QuicTransportFactoryImpl::CreateQuicTransportClient`: post the
construction closure to the I/O thread, block on the completion event,
and return the contents of the result slot. -/
def createQuicTransportClient (fromString : String → Option Nat)
    (resolve : String → Except Int Nat) (host : String) (port : Int) :
    CreateClientOutcome :=
  let task := createClientOnIOThread fromString resolve host port
  if task.signaled then CreateClientOutcome.returns task.result
  else CreateClientOutcome.callerBlocksForever


/-- A concrete started server endpoint, as it stands after
`StartOnCurrentThread`: socket installed and dispatcher constructed. -/
def startedServer : ServerState :=
  { port := 7700, socketHeld := true, dispatcherHeld := true,
    readPending := false, syncReadCount := 0, chlosBuffered := false,
    serverAddress := 1, clientAddress := 2, now := 5 }


lemma onReadCompleteStep_nonpos (r : Int) (s : ServerState)
    (h : r ≤ 0) (hd : s.dispatcherHeld = true) :
    onReadCompleteStep r s =
      (if s.socketHeld then
        some ({s with readPending := false, socketHeld := false},
          [Effect.logReadError (if r = 0 then ERR_CONNECTION_CLOSED else r),
           Effect.shutdownDispatcher, Effect.closeSocket], false)
      else
        some ({s with readPending := false},
          [Effect.logReadError (if r = 0 then ERR_CONNECTION_CLOSED else r),
           Effect.shutdownDispatcher], false)) := by
  unfold onReadCompleteStep stop
  rcases eq_or_lt_of_le h with h0 | hneg
  · subst h0
    simp [ERR_CONNECTION_CLOSED, hd]
    cases hs : s.socketHeld <;> simp [hs]
  · have : ¬ (r = 0) := by omega
    simp [this, hneg, hd]
    cases hs : s.socketHeld <;> simp [hs]

lemma onReadCompleteStep_pos (r : Int) (s : ServerState)
    (h : 0 < r) (hd : s.dispatcherHeld = true) :
    onReadCompleteStep r s =
      some ({s with readPending := false},
        [Effect.processPacket s.serverAddress s.clientAddress r s.now], true) := by
  have h0 : ¬ (r = 0) := by omega
  have h1 : ¬ (r < 0) := by omega
  unfold onReadCompleteStep
  simp [h0, h1, hd]

lemma startReading_readPending (s : ServerState) (rs : List (Int × Nat))
    (h : s.readPending = true) (hd : s.dispatcherHeld = true) :
    startReading s rs = some (s, chlosBatch s) := by
  unfold startReading chlosBatch
  simp [hd, h]

lemma startReading_nil (s : ServerState)
    (h : s.readPending = false) (hd : s.dispatcherHeld = true)
    (hsk : s.socketHeld = true) :
    startReading s [] =
      some ({s with readPending := true, syncReadCount := 0},
        chlosBatch s ++ Effect.recvFrom ERR_IO_PENDING ::
          (if s.chlosBuffered then [Effect.postStartReading] else [])) := by
  unfold startReading chlosBatch
  simp [hd, h, hsk]

lemma startReading_pendingEntry (s : ServerState) (peer : Nat)
    (rest : List (Int × Nat))
    (h : s.readPending = false) (hd : s.dispatcherHeld = true)
    (hsk : s.socketHeld = true) :
    startReading s ((ERR_IO_PENDING, peer) :: rest) =
      some ({s with readPending := true, syncReadCount := 0},
        chlosBatch s ++ Effect.recvFrom ERR_IO_PENDING ::
          (if s.chlosBuffered then [Effect.postStartReading] else [])) := by
  unfold startReading chlosBatch
  simp [hd, h, hsk]

lemma startReading_syncPost (s : ServerState) (r : Int) (peer : Nat)
    (rest : List (Int × Nat))
    (h : s.readPending = false) (hd : s.dispatcherHeld = true)
    (hsk : s.socketHeld = true) (hr : r ≠ ERR_IO_PENDING)
    (hc : 32 < s.syncReadCount + 1) :
    startReading s ((r, peer) :: rest) =
      some ({s with readPending := true, clientAddress := peer, syncReadCount := 0},
        chlosBatch s ++ [Effect.recvFrom r, Effect.postOnReadComplete r]) := by
  unfold startReading chlosBatch
  simp [hd, h, hsk, hr, hc]

lemma startReading_syncInline (s : ServerState) (r : Int) (peer : Nat)
    (rest : List (Int × Nat))
    (h : s.readPending = false) (hd : s.dispatcherHeld = true)
    (hsk : s.socketHeld = true) (hr : r ≠ ERR_IO_PENDING)
    (hc : s.syncReadCount + 1 ≤ 32) :
    startReading s ((r, peer) :: rest) =
      match onReadComplete r
          {s with readPending := true, clientAddress := peer,
                  syncReadCount := s.syncReadCount + 1} rest with
      | none => none
      | some (s4, fx2) => some (s4, chlosBatch s ++ Effect.recvFrom r :: fx2) := by
  have hc' : ¬ (32 < s.syncReadCount + 1) := by omega
  unfold startReading onReadComplete chlosBatch
  simp only [hd, h, hsk, hr, hc']
  simp only [Bool.true_eq_false, and_false, if_false, if_neg, ite_false]
  rcases hstep : onReadCompleteStep r
      {s with readPending := true, clientAddress := peer,
              syncReadCount := s.syncReadCount + 1} with _ | ⟨s3, fx1, cont⟩ <;>
    simp only [hd, hsk] at hstep
  · simp [hstep]
  · cases cont
    · simp [hstep]
    · rcases hrec : startReading s3 rest with _ | ⟨s4, fx2⟩
      · simp [hstep, hrec]
      · simp [hstep, hrec]

lemma onReadComplete_nonpos (r : Int) (s : ServerState) (rs : List (Int × Nat))
    (h : r ≤ 0) (hd : s.dispatcherHeld = true) :
    onReadComplete r s rs =
      (if s.socketHeld then
        some ({s with readPending := false, socketHeld := false},
          [Effect.logReadError (if r = 0 then ERR_CONNECTION_CLOSED else r),
           Effect.shutdownDispatcher, Effect.closeSocket])
      else
        some ({s with readPending := false},
          [Effect.logReadError (if r = 0 then ERR_CONNECTION_CLOSED else r),
           Effect.shutdownDispatcher])) := by
  unfold onReadComplete
  rw [onReadCompleteStep_nonpos r s h hd]
  cases hs : s.socketHeld <;> simp [hs]

lemma onReadComplete_pos (r : Int) (s : ServerState) (rs : List (Int × Nat))
    (h : 0 < r) (hd : s.dispatcherHeld = true) :
    onReadComplete r s rs =
      match startReading {s with readPending := false} rs with
      | none => none
      | some (s2, fx2) =>
        some (s2,
          Effect.processPacket s.serverAddress s.clientAddress r s.now :: fx2) := by
  unfold onReadComplete
  rw [onReadCompleteStep_pos r s h hd]
  rcases hrec : startReading {s with readPending := false} rs with _ | ⟨s2, fx2⟩ <;>
    simp [hrec]

lemma startReading_isSome (rs : List (Int × Nat)) :
    ∀ s : ServerState, s.dispatcherHeld = true → s.socketHeld = true →
      (startReading s rs).isSome := by
  induction rs with
  | nil =>
    intro s hd hsk
    cases hp : s.readPending
    · rw [startReading_nil s hp hd hsk]; rfl
    · rw [startReading_readPending s [] hp hd]; rfl
  | cons p rest ih =>
    intro s hd hsk
    obtain ⟨r, peer⟩ := p
    cases hp : s.readPending
    case true => rw [startReading_readPending _ _ hp hd]; rfl
    case false =>
      by_cases hr : r = ERR_IO_PENDING
      · subst hr; rw [startReading_pendingEntry s peer rest hp hd hsk]; rfl
      · by_cases hc : 32 < s.syncReadCount + 1
        · rw [startReading_syncPost s r peer rest hp hd hsk hr hc]; rfl
        · push_neg at hc
          rw [startReading_syncInline s r peer rest hp hd hsk hr hc]
          set s2 : ServerState := {s with
            readPending := true,
            clientAddress := peer,
            syncReadCount := s.syncReadCount + 1} with hs2
          have hd2 : s2.dispatcherHeld = true := by simp [hs2, hd]
          have h1 : (onReadComplete r s2 rest).isSome := by
            by_cases hpos : 0 < r
            · rw [onReadComplete_pos r s2 rest hpos hd2]
              have hrec := ih {s2 with readPending := false}
                (by simp [hs2, hd]) (by simp [hs2, hsk])
              rcases hrec' : startReading {s2 with readPending := false} rest
                with _ | ⟨s4, fx4⟩
              · rw [hrec'] at hrec; simp at hrec
              · simp only [hrec']; rfl
            · push_neg at hpos
              rw [onReadComplete_nonpos r s2 rest hpos hd2]
              cases hx : s2.socketHeld <;> simp [hx]
          rcases ho : onReadComplete r s2 rest with _ | ⟨s4, fx4⟩
          · rw [ho] at h1; simp at h1
          · simp only [ho]; rfl

lemma onReadComplete_isSome (r : Int) (s : ServerState) (rs : List (Int × Nat))
    (hd : s.dispatcherHeld = true) (hsk : s.socketHeld = true) :
    (onReadComplete r s rs).isSome := by
  by_cases hpos : 0 < r
  · rw [onReadComplete_pos r s rs hpos hd]
    have hrec := startReading_isSome rs {s with readPending := false}
      (by simp [hd]) (by simp [hsk])
    rcases hrec' : startReading {s with readPending := false} rs with _ | ⟨s2, fx2⟩
    · rw [hrec'] at hrec; simp at hrec
    · simp only [hrec']; rfl
  · push_neg at hpos
    rw [onReadComplete_nonpos r s rs hpos hd]
    cases hs : s.socketHeld <;> simp [hs]

lemma startReading_preserves (rs : List (Int × Nat)) :
    ∀ s s' : ServerState, ∀ fx : List Effect,
      s.dispatcherHeld = true → s.socketHeld = true →
      startReading s rs = some (s', fx) →
      s'.serverAddress = s.serverAddress ∧ s'.port = s.port ∧
      s'.now = s.now ∧ s'.dispatcherHeld = true := by
  induction rs with
  | nil =>
    intro s s' fx hd hsk heq
    cases hp : s.readPending
    · rw [startReading_nil s hp hd hsk] at heq
      simp at heq
      obtain ⟨h1, -⟩ := heq
      simp [← h1, hd]
    · rw [startReading_readPending s [] hp hd] at heq
      simp at heq
      obtain ⟨h1, -⟩ := heq
      simp [← h1, hd]
  | cons p rest ih =>
    intro s s' fx hd hsk heq
    obtain ⟨r, peer⟩ := p
    cases hp : s.readPending
    case true =>
      rw [startReading_readPending _ _ hp hd] at heq
      simp at heq
      obtain ⟨h1, -⟩ := heq
      simp [← h1, hd]
    case false =>
      by_cases hr : r = ERR_IO_PENDING
      · subst hr
        rw [startReading_pendingEntry s peer rest hp hd hsk] at heq
        simp at heq
        obtain ⟨h1, -⟩ := heq
        simp [← h1, hd]
      · by_cases hc : 32 < s.syncReadCount + 1
        · rw [startReading_syncPost s r peer rest hp hd hsk hr hc] at heq
          simp at heq
          obtain ⟨h1, -⟩ := heq
          simp [← h1, hd]
        · push_neg at hc
          rw [startReading_syncInline s r peer rest hp hd hsk hr hc] at heq
          set s2 : ServerState := {s with
            readPending := true,
            clientAddress := peer,
            syncReadCount := s.syncReadCount + 1} with hs2
          have hd2 : s2.dispatcherHeld = true := by simp [hs2, hd]
          by_cases hpos : 0 < r
          · rw [onReadComplete_pos r s2 rest hpos hd2] at heq
            rcases hrec : startReading {s2 with readPending := false} rest
              with _ | ⟨s4, fx4⟩
            · rw [hrec] at heq; simp at heq
            · rw [hrec] at heq
              simp at heq
              obtain ⟨h1, -⟩ := heq
              have := ih {s2 with readPending := false} s4 fx4
                (by simp [hs2, hd]) (by simp [hs2, hsk]) hrec
              simp [hs2] at this
              simp [← h1, this]
          · push_neg at hpos
            rw [onReadComplete_nonpos r s2 rest hpos hd2] at heq
            have hsk2 : s2.socketHeld = true := by simp [hs2, hsk]
            rw [hsk2] at heq
            simp at heq
            obtain ⟨h1, -⟩ := heq
            simp [← h1, hs2, hd]

lemma startReading_syncRun_posts (rs : List (Int × Nat)) :
    ∀ s : ServerState, s.dispatcherHeld = true → s.socketHeld = true →
      s.readPending = false → (∀ p ∈ rs, 0 < p.1) →
      s.syncReadCount ≤ 32 → 32 < s.syncReadCount + rs.length →
      ∃ s' fx, startReading s rs = some (s', fx) ∧
        ∃ q, Effect.postOnReadComplete q ∈ fx := by
  induction rs with
  | nil =>
    intro s _ _ _ _ hle hgt
    simp at hgt
    omega
  | cons p rest ih =>
    intro s hd hsk hp hpos hle hgt
    obtain ⟨r, peer⟩ := p
    have hr0 : 0 < r := hpos (r, peer) (by simp)
    have hrne : r ≠ ERR_IO_PENDING := by unfold ERR_IO_PENDING; omega
    by_cases hc : 32 < s.syncReadCount + 1
    · rw [startReading_syncPost s r peer rest hp hd hsk hrne hc]
      exact ⟨_, _, rfl, r, by simp⟩
    · push_neg at hc
      rw [startReading_syncInline s r peer rest hp hd hsk hrne hc]
      set s2 : ServerState := {s with
        readPending := true,
        clientAddress := peer,
        syncReadCount := s.syncReadCount + 1} with hs2
      have hd2 : s2.dispatcherHeld = true := by simp [hs2, hd]
      rw [onReadComplete_pos r s2 rest hr0 hd2]
      obtain ⟨s4, fx4, hrec, q, hq⟩ := ih {s2 with readPending := false}
        (by simp [hs2, hd]) (by simp [hs2, hsk]) (by simp)
        (fun p hmem => hpos p (by simp [hmem]))
        (by simp [hs2]; omega)
        (by simp [hs2] at *; omega)
      rw [hrec]
      exact ⟨_, _, rfl, q, by simp [hq]⟩

lemma startReading_shape (rs : List (Int × Nat)) (s : ServerState)
    (hd : s.dispatcherHeld = true) (hsk : s.socketHeld = true) :
    ∃ s' tail, startReading s rs = some (s', chlosBatch s ++ tail) ∧
      (tail = [] ∨ ∃ r t, tail = Effect.recvFrom r :: t) := by
  cases hp : s.readPending
  case true =>
    refine ⟨s, [], ?_, Or.inl rfl⟩
    rw [startReading_readPending s rs hp hd]
    simp
  case false =>
    match rs with
    | [] =>
      rw [startReading_nil s hp hd hsk]
      exact ⟨_, _, rfl, Or.inr ⟨_, _, rfl⟩⟩
    | (r, peer) :: rest =>
      by_cases hr : r = ERR_IO_PENDING
      · subst hr
        rw [startReading_pendingEntry s peer rest hp hd hsk]
        exact ⟨_, _, rfl, Or.inr ⟨_, _, rfl⟩⟩
      · by_cases hc : 32 < s.syncReadCount + 1
        · rw [startReading_syncPost s r peer rest hp hd hsk hr hc]
          exact ⟨_, _, rfl, Or.inr ⟨_, _, rfl⟩⟩
        · push_neg at hc
          rw [startReading_syncInline s r peer rest hp hd hsk hr hc]
          set s2 : ServerState := {s with
            readPending := true,
            clientAddress := peer,
            syncReadCount := s.syncReadCount + 1} with hs2
          have h1 : (onReadComplete r s2 rest).isSome :=
            onReadComplete_isSome r s2 rest (by simp [hs2, hd]) (by simp [hs2, hsk])
          rcases ho : onReadComplete r s2 rest with _ | ⟨s4, fx4⟩
          · rw [ho] at h1; simp at h1
          · simp only [ho]
            exact ⟨_, _, rfl, Or.inr ⟨_, _, rfl⟩⟩

/-- C9: `CreateQuicTransportServer` check-fails (a process-level abort,
modelled as `none`) exactly when the certificate/key material cannot be
loaded into the ProofSource; when loading succeeds it constructs and
returns a server endpoint for that port that is unstarted: no socket is
held, no dispatcher exists, no read is pending, and the synchronous-read
counter is zero. -/
theorem createServer_checkFails_or_unstarted (proofSourceLoads : Bool) (port : Int) :
    (proofSourceLoads = false →
      createQuicTransportServer proofSourceLoads port = none) ∧
    (proofSourceLoads = true → ∃ impl : ServerImpl,
      createQuicTransportServer proofSourceLoads port = some impl ∧
      impl.state.port = port ∧
      impl.state.socketHeld = false ∧
      impl.state.dispatcherHeld = false ∧
      impl.state.readPending = false ∧
      impl.state.syncReadCount = 0) := by
  constructor
  · intro h; subst h; rfl
  · intro h; subst h
    exact ⟨_, rfl, rfl, rfl, rfl, rfl, rfl⟩

/-- Witness for C9 at a concrete port: loading failure aborts, loading
success yields an unstarted endpoint. -/
theorem createServer_checkFails_or_unstarted_witness :
    (createQuicTransportServer false 7700 = none) ∧
    (∃ impl : ServerImpl,
      createQuicTransportServer true 7700 = some impl ∧
      impl.state.port = 7700 ∧
      impl.state.socketHeld = false ∧
      impl.state.dispatcherHeld = false ∧
      impl.state.readPending = false ∧
      impl.state.syncReadCount = 0) :=
  ⟨(createServer_checkFails_or_unstarted false 7700).1 rfl,
   (createServer_checkFails_or_unstarted true 7700).2 rfl⟩

/-- C10: for every host and port, a successfully constructed client's
`QuicServerId` is built from the hardcoded URL
`https://www.example.org` — host `"www.example.org"` and effective port
443 — not from the caller-supplied host and port; only the socket peer
address uses the caller-supplied values (the parsed or resolved `host`
address and `port`). -/
theorem createClient_serverId_hardcoded (fromString : String → Option Nat)
    (resolve : String → Except Int Nat) (host : String) (port : Int) (ip : Nat)
    (h : fromString host = some ip ∨
         (fromString host = none ∧ resolve host = Except.ok ip)) :
    createQuicTransportClient fromString resolve host port =
      CreateClientOutcome.returns (some
        { peerIp := ip, peerPort := port,
          serverIdHost := "www.example.org", serverIdPort := 443 }) := by
  rcases h with h | ⟨h1, h2⟩
  · unfold createQuicTransportClient createClientOnIOThread
    simp [h, exampleUrlHost, exampleUrlEffectiveIntPort]
  · unfold createQuicTransportClient createClientOnIOThread
    simp [h1, h2, exampleUrlHost, exampleUrlEffectiveIntPort]

/-- Witness for C10: an IP-literal host `"203.0.113.5"` on port 443
yields a client whose server id is `www.example.org:443` and whose peer
address is the caller's. -/
theorem createClient_serverId_hardcoded_witness :
    createQuicTransportClient (fun _ => some 113005) (fun _ => Except.error (-2))
        "203.0.113.5" 443 =
      CreateClientOutcome.returns (some
        { peerIp := 113005, peerPort := 443,
          serverIdHost := "www.example.org", serverIdPort := 443 }) :=
  createClient_serverId_hardcoded (fun _ => some 113005)
    (fun _ => Except.error (-2)) "203.0.113.5" 443 113005 (Or.inl rfl)

/-- C1 as stated is false on the code: with a host that is not an IP
literal and a resolver that fails, the posted closure returns without
calling `event->Signal()`, so `done.Wait()` never completes — the
calling thread hangs instead of receiving the null result. -/
theorem createClient_resolveFailure_counterexample :
    createQuicTransportClient (fun _ => none) (fun _ => Except.error (-105))
        "nonexistent.invalid" 443 = CreateClientOutcome.callerBlocksForever ∧
    createQuicTransportClient (fun _ => none) (fun _ => Except.error (-105))
        "nonexistent.invalid" 443 ≠ CreateClientOutcome.returns none := by
  exact ⟨rfl, by decide⟩

/-- C1 amended: when the host is not an IP literal and resolution fails,
the I/O-thread closure logs the error and returns without writing the
result slot and without signalling the completion event; the result slot
stays empty and the calling thread's wait never completes — the caller
blocks forever instead of being returned a null result. -/
theorem createClient_resolveFailure_blocks (fromString : String → Option Nat)
    (resolve : String → Except Int Nat) (host : String) (port : Int) (rv : Int)
    (hlit : fromString host = none) (hres : resolve host = Except.error rv) :
    createClientOnIOThread fromString resolve host port =
      { result := none, signaled := false, loggedResolveError := true } ∧
    createQuicTransportClient fromString resolve host port =
      CreateClientOutcome.callerBlocksForever := by
  unfold createQuicTransportClient createClientOnIOThread
  simp [hlit, hres]

/-- Witness for the amended C1 at the concrete failing host. -/
theorem createClient_resolveFailure_blocks_witness :
    createClientOnIOThread (fun _ => none) (fun _ => Except.error (-105))
        "nonexistent.invalid" 443 =
      { result := none, signaled := false, loggedResolveError := true } ∧
    createQuicTransportClient (fun _ => none) (fun _ => Except.error (-105))
        "nonexistent.invalid" 443 = CreateClientOutcome.callerBlocksForever :=
  createClient_resolveFailure_blocks (fun _ => none)
    (fun _ => Except.error (-105)) "nonexistent.invalid" 443 (-105) rfl rfl

/-- C2 as stated is false on the code: on a freshly constructed (never
started) endpoint `dispatcher_` is still a null `unique_ptr`, and
`Stop()` runs `dispatcher_->Shutdown()` before its socket guard, so
calling `Stop()` before `Start()` dereferences the null dispatcher
(crashes) rather than succeeding as a no-op. -/
theorem stop_beforeStart_counterexample :
    createQuicTransportServer true 7700 =
      some { config := initializeConfig defaultQuicConfig,
             state := initialServerState 7700 } ∧
    stop (initialServerState 7700) = none :=
  ⟨rfl, rfl⟩

/-- C2 amended: once the dispatcher exists (after `Start()` has run on
the I/O thread), `Stop()` is idempotent and never releases the socket
more than once: a `Stop()` with no socket held performs only the
dispatcher shutdown, a `Stop()` with the socket held closes and releases
it exactly once, and a second `Stop()` in a row performs only the
dispatcher shutdown.  Calling `Stop()` before `Start()` (null
dispatcher) fails. -/
theorem stop_idempotent_with_dispatcher (s : ServerState)
    (hd : s.dispatcherHeld = true) :
    ∃ s1 fx1, stop s = some (s1, fx1) ∧
      s1.socketHeld = false ∧
      (s.socketHeld = false → s1 = s ∧ fx1 = [Effect.shutdownDispatcher]) ∧
      (s.socketHeld = true → s1 = {s with socketHeld := false} ∧
        fx1 = [Effect.shutdownDispatcher, Effect.closeSocket]) ∧
      stop s1 = some (s1, [Effect.shutdownDispatcher]) ∧
      fx1.count Effect.closeSocket ≤ 1 := by
  cases hs : s.socketHeld
  · refine ⟨s, [Effect.shutdownDispatcher], ?_, hs, fun _ => ⟨rfl, rfl⟩,
      fun h => absurd h (by simp [hs]), ?_, by simp⟩
    · unfold stop; simp [hd, hs]
    · unfold stop; simp [hd, hs]
  · refine ⟨{s with socketHeld := false},
      [Effect.shutdownDispatcher, Effect.closeSocket], ?_, rfl,
      fun h => absurd h (by simp [hs]), fun _ => ⟨rfl, rfl⟩, ?_, by simp⟩
    · unfold stop; simp [hd, hs]
    · unfold stop; simp [hd]

/-- Witness for the amended C2: on a concrete started endpoint, the
first `Stop()` shuts down the dispatcher and closes the socket once, and
the second `Stop()` performs only the dispatcher shutdown. -/
theorem stop_idempotent_with_dispatcher_witness :
    ∃ s1 fx1, stop startedServer = some (s1, fx1) ∧
      s1.socketHeld = false ∧
      (startedServer.socketHeld = false →
        s1 = startedServer ∧ fx1 = [Effect.shutdownDispatcher]) ∧
      (startedServer.socketHeld = true →
        s1 = {startedServer with socketHeld := false} ∧
        fx1 = [Effect.shutdownDispatcher, Effect.closeSocket]) ∧
      stop s1 = some (s1, [Effect.shutdownDispatcher]) ∧
      fx1.count Effect.closeSocket ≤ 1 :=
  stop_idempotent_with_dispatcher startedServer rfl

/-- C4 as stated is false on the code: a `StartReading()` call while a
receive is pending is not a strict no-op — when the synchronous-read
counter is 0 it still invokes `ProcessBufferedChlos(16)` on the
Dispatcher before reaching the `read_pending_` early return, an
observable effect.  (No second receive is issued.) -/
theorem startReading_whilePending_counterexample :
    startReading {startedServer with readPending := true} [] =
      some ({startedServer with readPending := true},
        [Effect.processBufferedChlos 16]) ∧
    [Effect.processBufferedChlos 16] ≠ ([] : List Effect) :=
  ⟨rfl, by decide⟩

/-- C4 amended: whenever `StartReading` is called while a receive is
pending (read-in-flight flag set), no second receive is issued (no
`RecvFrom` occurs) and the endpoint state is unchanged; the call is a
strict no-op except that, when the synchronous-read counter is 0, it
first asks the Dispatcher to process buffered CHLOs (batch 16) before
returning. -/
theorem startReading_whilePending_noSecondReceive (s : ServerState)
    (rs : List (Int × Nat)) (hp : s.readPending = true)
    (hd : s.dispatcherHeld = true) :
    startReading s rs = some (s, chlosBatch s) ∧
    (∀ r, Effect.recvFrom r ∉ chlosBatch s) ∧
    (s.syncReadCount ≠ 0 → chlosBatch s = []) ∧
    (s.syncReadCount = 0 → chlosBatch s =
      [Effect.processBufferedChlos kNumSessionsToCreatePerSocketEvent]) := by
  refine ⟨startReading_readPending s rs hp hd, ?_, ?_, ?_⟩
  · intro r; unfold chlosBatch; split <;> simp
  · intro h; unfold chlosBatch; simp [h]
  · intro h; unfold chlosBatch; simp [h]

/-- Witness for the amended C4 on a concrete pending-read endpoint: the
state is unchanged, no receive was issued, and the only effect is the
CHLO batch. -/
theorem startReading_whilePending_noSecondReceive_witness :
    startReading {startedServer with readPending := true} [(7, 9)] =
      some ({startedServer with readPending := true},
        chlosBatch {startedServer with readPending := true}) ∧
    chlosBatch {startedServer with readPending := true} =
      [Effect.processBufferedChlos kNumSessionsToCreatePerSocketEvent] :=
  ⟨(startReading_whilePending_noSecondReceive
      {startedServer with readPending := true} [(7, 9)] rfl rfl).1,
   (startReading_whilePending_noSecondReceive
      {startedServer with readPending := true} [(7, 9)] rfl rfl).2.2.2 rfl⟩

/-- C6: when the issued receive returns `ERR_IO_PENDING`, `StartReading`
resets the synchronous-read counter to 0, leaves the read in flight, and
posts a `StartReading` continuation to the thread queue if and only if
the Dispatcher reports buffered handshake state; it then returns with no
further receive (the full effect trace is given explicitly). -/
theorem startReading_pendingRead_spec (s : ServerState) (peer : Nat)
    (rest : List (Int × Nat)) (hp : s.readPending = false)
    (hd : s.dispatcherHeld = true) (hsk : s.socketHeld = true) :
    ∃ fx, startReading s ((ERR_IO_PENDING, peer) :: rest) =
        some ({s with readPending := true, syncReadCount := 0}, fx) ∧
      fx = chlosBatch s ++ Effect.recvFrom ERR_IO_PENDING ::
        (if s.chlosBuffered then [Effect.postStartReading] else []) ∧
      (Effect.postStartReading ∈ fx ↔ s.chlosBuffered = true) := by
  refine ⟨_, startReading_pendingEntry s peer rest hp hd hsk, rfl, ?_⟩
  cases hb : s.chlosBuffered <;> unfold chlosBatch <;> split <;> simp [hb]

/-- Witness for C6 on a concrete endpoint with buffered handshake
state: the continuation is posted. -/
theorem startReading_pendingRead_spec_witness :
    ∃ fx, startReading {startedServer with chlosBuffered := true}
          [(ERR_IO_PENDING, 9)] =
        some ({startedServer with
                chlosBuffered := true,
                readPending := true,
                syncReadCount := 0}, fx) ∧
      fx = chlosBatch {startedServer with chlosBuffered := true} ++
        Effect.recvFrom ERR_IO_PENDING ::
          (if ({startedServer with chlosBuffered := true}).chlosBuffered
           then [Effect.postStartReading] else []) ∧
      (Effect.postStartReading ∈ fx ↔
        ({startedServer with chlosBuffered := true}).chlosBuffered = true) :=
  startReading_pendingRead_spec {startedServer with chlosBuffered := true}
    9 [] rfl rfl rfl

/-- C7: `StartReading` asks the Dispatcher to process buffered CHLOs
with batch limit exactly `kNumSessionsToCreatePerSocketEvent = 16`, and
does so before touching the socket (it is the very first emitted
effect), if and only if the synchronous-read counter is 0 at entry. -/
theorem startReading_chlos_iff_counterZero (s : ServerState)
    (rs : List (Int × Nat)) (hd : s.dispatcherHeld = true)
    (hsk : s.socketHeld = true) :
    kNumSessionsToCreatePerSocketEvent = 16 ∧
    ∃ s' fx, startReading s rs = some (s', fx) ∧
      (s.syncReadCount = 0 ↔
        fx.head? = some
          (Effect.processBufferedChlos kNumSessionsToCreatePerSocketEvent)) := by
  refine ⟨rfl, ?_⟩
  obtain ⟨s', tail, heq, htail⟩ := startReading_shape rs s hd hsk
  refine ⟨s', _, heq, ?_, ?_⟩
  · intro h; simp [chlosBatch, h]
  · intro h
    by_contra hne
    rw [chlosBatch, if_neg hne] at h
    rcases htail with rfl | ⟨r, t, rfl⟩
    · simp at h
    · simp at h

/-- Witness for C7 on concrete endpoints: with the counter at 0 the
trace starts with the CHLO batch; with a nonzero counter it does not. -/
theorem startReading_chlos_iff_counterZero_witness :
    kNumSessionsToCreatePerSocketEvent = 16 ∧
    ∃ s' fx, startReading startedServer [] = some (s', fx) ∧
      (startedServer.syncReadCount = 0 ↔
        fx.head? = some
          (Effect.processBufferedChlos kNumSessionsToCreatePerSocketEvent)) :=
  startReading_chlos_iff_counterZero startedServer [] rfl rfl

/-- C5: `OnReadComplete` first clears the in-flight flag; a zero-byte
result is treated as `ERR_CONNECTION_CLOSED`; every non-positive result
is logged and triggers `Stop()`, leaving the endpoint stopped with the
socket released exactly once and no packet handed to the Dispatcher
(the full effect trace is given explicitly); every positive result is
wrapped with the receive timestamp and handed to the Dispatcher with
the local and peer addresses, after which the read loop is re-invoked. -/
theorem onReadComplete_spec (s : ServerState) (rs : List (Int × Nat))
    (result : Int) (hd : s.dispatcherHeld = true) (hsk : s.socketHeld = true) :
    (result ≤ 0 →
      onReadComplete result s rs =
        some ({s with readPending := false, socketHeld := false},
          [Effect.logReadError
             (if result = 0 then ERR_CONNECTION_CLOSED else result),
           Effect.shutdownDispatcher, Effect.closeSocket])) ∧
    (0 < result →
      ∃ s' fx, startReading {s with readPending := false} rs = some (s', fx) ∧
        onReadComplete result s rs =
          some (s', Effect.processPacket s.serverAddress s.clientAddress
            result s.now :: fx)) := by
  constructor
  · intro h
    rw [onReadComplete_nonpos result s rs h hd]
    simp [hsk]
  · intro h
    rw [onReadComplete_pos result s rs h hd]
    have h1 := startReading_isSome rs {s with readPending := false}
      (by simp [hd]) (by simp [hsk])
    rcases heq : startReading {s with readPending := false} rs with _ | ⟨s', fx⟩
    · rw [heq] at h1; simp at h1
    · exact ⟨s', fx, rfl, rfl⟩

/-- Witness for C5 on a concrete started endpoint: a `-1` result stops
the endpoint and releases the socket once; a `5`-byte result hands the
packet to the Dispatcher and re-invokes the read loop. -/
theorem onReadComplete_spec_witness :
    onReadComplete (-1) startedServer [] =
      some ({startedServer with readPending := false, socketHeld := false},
        [Effect.logReadError (-1), Effect.shutdownDispatcher,
         Effect.closeSocket]) ∧
    ∃ s' fx, startReading {startedServer with readPending := false} [] =
        some (s', fx) ∧
      onReadComplete 5 startedServer [] =
        some (s', Effect.processPacket startedServer.serverAddress
          startedServer.clientAddress 5 startedServer.now :: fx) := by
  constructor
  · have h := (onReadComplete_spec startedServer [] (-1) rfl rfl).1 (by norm_num)
    simpa using h
  · exact (onReadComplete_spec startedServer [] 5 rfl rfl).2 (by norm_num)

/-- C3: for a synchronously completing receive, `StartReading`
increments the synchronous-read counter, and exactly when the
incremented counter exceeds 32 it resets the counter to 0 and posts the
completion handler to the thread queue instead of invoking it in-line
(otherwise the completion handler runs in-line at the incremented
counter); consequently any run of more than 32 consecutive synchronous
receives, started with the counter at 0, posts at least one
continuation rather than recursing in-line. -/
theorem startReading_syncCounter_spec :
    (∀ (s : ServerState) (r : Int) (peer : Nat) (rest : List (Int × Nat)),
      s.readPending = false → s.dispatcherHeld = true → s.socketHeld = true →
      r ≠ ERR_IO_PENDING →
      ((32 < s.syncReadCount + 1 →
        startReading s ((r, peer) :: rest) =
          some ({s with
              readPending := true,
              clientAddress := peer,
              syncReadCount := 0},
            chlosBatch s ++
              [Effect.recvFrom r, Effect.postOnReadComplete r])) ∧
       (s.syncReadCount + 1 ≤ 32 →
        startReading s ((r, peer) :: rest) =
          match onReadComplete r {s with
              readPending := true,
              clientAddress := peer,
              syncReadCount := s.syncReadCount + 1} rest with
          | none => none
          | some (s4, fx2) =>
            some (s4, chlosBatch s ++ Effect.recvFrom r :: fx2)))) ∧
    (∀ (s : ServerState) (rs : List (Int × Nat)),
      s.dispatcherHeld = true → s.socketHeld = true → s.readPending = false →
      (∀ p ∈ rs, 0 < p.1) → s.syncReadCount = 0 → 32 < rs.length →
      ∃ s' fx, startReading s rs = some (s', fx) ∧
        ∃ q, Effect.postOnReadComplete q ∈ fx) := by
  constructor
  · intro s r peer rest hp hd hsk hr
    exact ⟨fun hc => startReading_syncPost s r peer rest hp hd hsk hr hc,
           fun hc => startReading_syncInline s r peer rest hp hd hsk hr hc⟩
  · intro s rs hd hsk hp hpos hzero hlen
    exact startReading_syncRun_posts rs s hd hsk hp hpos (by omega) (by omega)

/-- Witness for C3: on a concrete endpoint with the counter at 32 a
synchronous receive posts the completion handler, and a run of 33
synchronous receives from counter 0 posts at least one continuation. -/
theorem startReading_syncCounter_spec_witness :
    (startReading {startedServer with syncReadCount := 32} [(7, 9)] =
      some ({startedServer with
          readPending := true,
          clientAddress := 9,
          syncReadCount := 0},
        chlosBatch {startedServer with syncReadCount := 32} ++
          [Effect.recvFrom 7, Effect.postOnReadComplete 7])) ∧
    (∃ s' fx, startReading startedServer (List.replicate 33 (7, 9)) =
        some (s', fx) ∧ ∃ q, Effect.postOnReadComplete q ∈ fx) := by
  constructor
  · exact (startReading_syncCounter_spec.1 {startedServer with syncReadCount := 32}
      7 9 [] rfl rfl rfl (by decide)).1 (by decide)
  · exact startReading_syncCounter_spec.2 startedServer (List.replicate 33 (7, 9))
      rfl rfl rfl (by intro p hp; rw [List.eq_of_mem_replicate hp]; decide)
      rfl (by simp)

/-- C8: `StartOnCurrentThread` never aborts on socket configuration
failures: whatever the return codes of `Listen`,
`SetReceiveBufferSize`, `SetSendBufferSize` and `GetLocalAddress`, each
negative status is merely logged and the remaining initialization runs —
the local address is recorded (when `GetLocalAddress` succeeds), the
socket is installed, the Dispatcher is constructed and handed its packet
writer, and the receive loop is started. -/
theorem startOnCurrentThread_softFailures (env : StartEnv) (s : ServerState)
    (rs : List (Int × Nat)) :
    ∃ s' fx, startOnCurrentThread env s rs = some (s', fx) ∧
      Effect.installSocket ∈ fx ∧
      Effect.createDispatcher ∈ fx ∧
      Effect.initializeWithWriter ∈ fx ∧
      s'.dispatcherHeld = true ∧
      (env.listenRc < 0 → Effect.logListenError env.listenRc ∈ fx) ∧
      (env.recvBufRc < 0 → Effect.logRecvBufError env.recvBufRc ∈ fx) ∧
      (env.sendBufRc < 0 → Effect.logSendBufError env.sendBufRc ∈ fx) ∧
      (env.localAddrRc < 0 → Effect.logLocalAddrError env.localAddrRc ∈ fx) ∧
      (0 ≤ env.localAddrRc → s'.serverAddress = env.localAddr) ∧
      (s.syncReadCount = 0 →
        Effect.processBufferedChlos kNumSessionsToCreatePerSocketEvent ∈ fx) := by
  by_cases hrc : env.localAddrRc < 0
  · obtain ⟨s3, tail, heq, -⟩ := startReading_shape rs
      {s with
        socketHeld := true,
        dispatcherHeld := true,
        chlosBuffered := env.dispatcherChlosBuffered} rfl rfl
    have hpres := startReading_preserves rs _ s3 _ rfl rfl heq
    have hmain : startOnCurrentThread env s rs = some (s3,
        (if env.listenRc < 0 then [Effect.logListenError env.listenRc] else []) ++
        (if env.recvBufRc < 0 then [Effect.logRecvBufError env.recvBufRc] else []) ++
        (if env.sendBufRc < 0 then [Effect.logSendBufError env.sendBufRc] else []) ++
        [Effect.logLocalAddrError env.localAddrRc] ++
        [Effect.installSocket, Effect.createDispatcher,
         Effect.initializeWithWriter] ++
        (chlosBatch {s with
          socketHeld := true,
          dispatcherHeld := true,
          chlosBuffered := env.dispatcherChlosBuffered} ++ tail)) := by
      unfold startOnCurrentThread
      rw [if_pos hrc, if_pos hrc]
      simp only [heq]
    refine ⟨s3, _, hmain, by simp, by simp, by simp, hpres.2.2.2,
      ?_, ?_, ?_, ?_, ?_, ?_⟩
    · intro h; simp [h]
    · intro h; simp [h]
    · intro h; simp [h]
    · intro h; simp [h]
    · intro h; omega
    · intro h
      have hcb : chlosBatch {s with
          socketHeld := true,
          dispatcherHeld := true,
          chlosBuffered := env.dispatcherChlosBuffered} =
            [Effect.processBufferedChlos kNumSessionsToCreatePerSocketEvent] := by
        unfold chlosBatch; simp [h]
      simp [hcb]
  · obtain ⟨s3, tail, heq, -⟩ := startReading_shape rs
      {s with
        serverAddress := env.localAddr,
        socketHeld := true,
        dispatcherHeld := true,
        chlosBuffered := env.dispatcherChlosBuffered} rfl rfl
    have hpres := startReading_preserves rs _ s3 _ rfl rfl heq
    have hmain : startOnCurrentThread env s rs = some (s3,
        (if env.listenRc < 0 then [Effect.logListenError env.listenRc] else []) ++
        (if env.recvBufRc < 0 then [Effect.logRecvBufError env.recvBufRc] else []) ++
        (if env.sendBufRc < 0 then [Effect.logSendBufError env.sendBufRc] else []) ++
        [] ++
        [Effect.installSocket, Effect.createDispatcher,
         Effect.initializeWithWriter] ++
        (chlosBatch {s with
          serverAddress := env.localAddr,
          socketHeld := true,
          dispatcherHeld := true,
          chlosBuffered := env.dispatcherChlosBuffered} ++ tail)) := by
      unfold startOnCurrentThread
      rw [if_neg hrc, if_neg hrc]
      simp only [heq]
    refine ⟨s3, _, hmain, by simp, by simp, by simp, hpres.2.2.2,
      ?_, ?_, ?_, ?_, ?_, ?_⟩
    · intro h; simp [h]
    · intro h; simp [h]
    · intro h; simp [h]
    · intro h; omega
    · intro h
      have h1 := hpres.1
      simp at h1
      simp [h1]
    · intro h
      have hcb : chlosBatch {s with
          serverAddress := env.localAddr,
          socketHeld := true,
          dispatcherHeld := true,
          chlosBuffered := env.dispatcherChlosBuffered} =
            [Effect.processBufferedChlos kNumSessionsToCreatePerSocketEvent] := by
        unfold chlosBatch; simp [h]
      simp [hcb]

/-- Witness for C8: with every socket-configuration call failing
(status −2), start still installs the socket, builds the dispatcher,
logs each failure and starts the read loop. -/
theorem startOnCurrentThread_softFailures_witness :
    ∃ s' fx, startOnCurrentThread
        { listenRc := -2, recvBufRc := -2, sendBufRc := -2, localAddrRc := -2,
          localAddr := 3, dispatcherChlosBuffered := false }
        (initialServerState 7700) [] = some (s', fx) ∧
      Effect.installSocket ∈ fx ∧
      Effect.createDispatcher ∈ fx ∧
      Effect.initializeWithWriter ∈ fx ∧
      s'.dispatcherHeld = true ∧
      ((-2 : Int) < 0 → Effect.logListenError (-2) ∈ fx) ∧
      ((-2 : Int) < 0 → Effect.logRecvBufError (-2) ∈ fx) ∧
      ((-2 : Int) < 0 → Effect.logSendBufError (-2) ∈ fx) ∧
      ((-2 : Int) < 0 → Effect.logLocalAddrError (-2) ∈ fx) ∧
      ((0 : Int) ≤ -2 → s'.serverAddress = 3) ∧
      ((initialServerState 7700).syncReadCount = 0 →
        Effect.processBufferedChlos kNumSessionsToCreatePerSocketEvent ∈ fx) :=
  startOnCurrentThread_softFailures
    { listenRc := -2, recvBufRc := -2, sendBufRc := -2, localAddrRc := -2,
      localAddr := 3, dispatcherChlosBuffered := false }
    (initialServerState 7700) []

end OwtQuic
